import Mathlib

/-!
Shallow embedding of the recommendation pipeline of the learning-agent
backend (`backend/app/services/recommendations` and the pydantic models in
`backend/app/models/recommendations`), together with theorems settling the
frozen claims about it.

Conventions of the embedding:
* Python `str` becomes `String`, `datetime` becomes a `Nat` tick supplied by
  the caller (the code only ever stores `datetime.now()`), `float` fields
  that are merely carried around become `Rat`.
* External model/API calls are suspension points: each embedded operation
  takes the outcome of the call it performs as an argument (an
  `Except String _` when the code has a try/except around the call, a plain
  function when the claim is about the path where the call returns).
* pydantic constructors validate keyword arguments: a required field that is
  not passed raises `ValidationError`.  Constructor call sites that omit a
  required field are embedded through a validating constructor taking an
  `Option` per field (`none` = keyword absent) and returning
  `Except String _`.
-/

/-- `LearningMoment` enum from `models/recommendations/moments.py`. -/
inductive LearningMoment where
  | new_topic_no_context
  | new_topic_with_context
  | concept_struggle
  | goal_direction
deriving Repr, DecidableEq

/-- `.value` of the `str`-valued Python enum `LearningMoment`. -/
def LearningMoment.value : LearningMoment → String
  | .new_topic_no_context => "new_topic_no_context"
  | .new_topic_with_context => "new_topic_with_context"
  | .concept_struggle => "concept_struggle"
  | .goal_direction => "goal_direction"

/-- `MomentDetection` from `models/recommendations/moments.py`. -/
structure MomentDetection where
  is_moment : Bool
  moment_type : LearningMoment
  confidence : Rat
  reasoning : String
  signals : List String
deriving Repr, DecidableEq

/-- Tail of `MomentDetector.detect_moment` (`moments/moment_detector.py`
lines 87-96): returns `detection.moment_type` iff `detection.is_moment`,
else `None`.  The structured call producing `detection` is the argument. -/
def detectMoment (detection : MomentDetection) : Option LearningMoment :=
  if detection.is_moment then some detection.moment_type else none

/-- `SearchAttempt` from `models/recommendations/strategy.py`. -/
structure SearchAttempt where
  query : String
  found_valuable_content : Bool
  valuable_content_ids : List String
  failure_reason : Option String
deriving Repr, DecidableEq

/-- `SearchStrategy` from `models/recommendations/strategy.py`.  All of
`search_queries`, `reasoning`, `technical_depth_target`,
`required_concepts` are required pydantic fields; `previous_attempts`
defaults to `[]`. -/
structure SearchStrategy where
  search_queries : List String
  reasoning : List String
  technical_depth_target : Rat
  required_concepts : List String
  previous_attempts : List SearchAttempt
deriving Repr, DecidableEq

/-- pydantic-style validating constructor for `SearchStrategy`: one `Option`
argument per field of the model (`none` means the keyword was not passed at
the call site).  The four required fields must be present, otherwise the
constructor raises `ValidationError`; `previous_attempts` falls back to its
`default_factory=list`. -/
def SearchStrategy.validate (search_queries : Option (List String))
    (reasoning : Option (List String)) (technical_depth_target : Option Rat)
    (required_concepts : Option (List String))
    (previous_attempts : Option (List SearchAttempt)) :
    Except String SearchStrategy :=
  match search_queries, reasoning, technical_depth_target, required_concepts with
  | some sq, some r, some t, some rc =>
      .ok ⟨sq, r, t, rc, previous_attempts.getD []⟩
  | _, _, _, _ => .error "ValidationError: field required"

/-- The `SearchAttempt` built at `strategy/strategy_generator.py` lines
200-205: `found_valuable_content=bool(valuable_content_ids)`. -/
def mkSearchAttempt (query : String) (valuable_content_ids : List String)
    (failure_reason : Option String) : SearchAttempt :=
  { query := query
    found_valuable_content := !valuable_content_ids.isEmpty
    valuable_content_ids := valuable_content_ids
    failure_reason := failure_reason }

/-- `StrategyGenerator.record_attempt` (`strategy/strategy_generator.py`
lines 192-212): builds the attempt, then constructs a new `SearchStrategy`
passing `search_queries`, `technical_depth_target`, `required_concepts` and
`previous_attempts` — and no `reasoning` keyword (hence `none` below). -/
def recordAttempt (strategy : SearchStrategy) (query : String)
    (valuable_content_ids : List String) (failure_reason : Option String) :
    Except String SearchStrategy :=
  SearchStrategy.validate
    (some strategy.search_queries)
    none
    (some strategy.technical_depth_target)
    (some strategy.required_concepts)
    (some (strategy.previous_attempts ++
      [mkSearchAttempt query valuable_content_ids failure_reason]))

/-- `StrategyRefinement` from `models/recommendations/strategy.py`.  The two
prompt-only fields `keep_queries_reasoning` and `new_queries_reasoning`
(which carry unvalidated string defaults and are never read by any code
modelled here) are elided. -/
structure StrategyRefinement where
  keep_queries : List String
  new_queries : List String
  adjusted_depth : Option Rat
  explanation : String
deriving Repr, DecidableEq

/-- The fallback built in the `except` branch of
`StrategyGenerator._analyze_previous_attempts`
(`strategy/strategy_generator.py` lines 277-290): keep the queries of
attempts with `found_valuable_content`, add the original query when it is
not among them. -/
def fallbackRefinement (previous_strategy : SearchStrategy) (query : String) :
    StrategyRefinement :=
  let successful_queries :=
    (previous_strategy.previous_attempts.filter
      (fun a => a.found_valuable_content)).map (fun a => a.query)
  { keep_queries := successful_queries
    new_queries := if query ∈ successful_queries then [] else [query]
    adjusted_depth := none
    explanation := "Error during analysis, keeping successful queries" }

/-- `StrategyGenerator._analyze_previous_attempts`: the structured
refinement call is the `refineCall` argument; on error the conservative
fallback is returned instead. -/
def analyzePreviousAttempts (refineCall : Except String StrategyRefinement)
    (previous_strategy : SearchStrategy) (query : String) : StrategyRefinement :=
  match refineCall with
  | .ok r => r
  | .error _ => fallbackRefinement previous_strategy query

/-- Refining branch of `StrategyGenerator.generate_strategy`
(`strategy/strategy_generator.py` lines 41-58): combines
`keep_queries + new_queries`, takes `adjusted_depth` when present, carries
`required_concepts` and `previous_attempts` forward — and passes no
`reasoning` keyword to the `SearchStrategy` constructor (hence `none`). -/
def generateStrategyRefining (refineCall : Except String StrategyRefinement)
    (previous_strategy : SearchStrategy) (query : String) :
    Except String SearchStrategy :=
  let refinement := analyzePreviousAttempts refineCall previous_strategy query
  SearchStrategy.validate
    (some (refinement.keep_queries ++ refinement.new_queries))
    none
    (some (match refinement.adjusted_depth with
      | some d => d
      | none => previous_strategy.technical_depth_target))
    (some previous_strategy.required_concepts)
    (some previous_strategy.previous_attempts)

/-- A well-formed strategy such as the fresh structured call returns (all
required fields present). -/
def sampleFreshStrategy : SearchStrategy :=
  { search_queries := ["stock buyback basics"]
    reasoning := ["entry level query"]
    technical_depth_target := (1 : ℚ) / 2
    required_concepts := ["buyback"]
    previous_attempts := [] }

/-- A strategy holding one failed prior attempt, as it would stand after a
(`reasoning`-supplying) recording of a failed search. -/
def sampleStrategyWithAttempt : SearchStrategy :=
  { search_queries := ["stock buyback basics"]
    reasoning := ["entry level query"]
    technical_depth_target := (1 : ℚ) / 2
    required_concepts := ["buyback"]
    previous_attempts :=
      [mkSearchAttempt "stock buyback basics" [] (some "No valuable content found")] }

/-- C2: the claim says `record_attempt` returns a new `SearchStrategy` with
one `SearchAttempt` appended and the input unchanged.  The code instead
raises `ValidationError` on every call: the `SearchStrategy` constructed at
`strategy_generator.py` lines 207-212 omits the required `reasoning` field
of the model.  Evaluating the embedded code at a concrete input exhibits
the raised error. -/
theorem C2_record_attempt_raises_validation_error :
    recordAttempt sampleFreshStrategy "stock buyback basics" []
      (some "No valuable content found") =
      .error "ValidationError: field required" := rfl

/-- C10: the `SearchAttempt` that `record_attempt` constructs (lines
200-205) has `found_valuable_content = true` exactly when the
`valuable_content_ids` argument is non-empty — the boolean is
`bool(valuable_content_ids)`, never set independently. -/
theorem C10_found_valuable_derived_from_ids
    (query : String) (valuable_content_ids : List String)
    (failure_reason : Option String) :
    (mkSearchAttempt query valuable_content_ids
        failure_reason).found_valuable_content = true ↔
      valuable_content_ids ≠ [] := by
  cases valuable_content_ids <;> simp [mkSearchAttempt]

/-- C3: the claim says a refinement invocation whose refinement model call
fails returns a strategy whose `search_queries` are the previously
successful queries plus the original query.  The fallback
`StrategyRefinement` is indeed built that way, but the strategy itself is
never returned: the `SearchStrategy` constructed at
`strategy_generator.py` lines 49-58 omits the required `reasoning` field,
so the refining branch raises `ValidationError` (re-raised by
`generate_strategy`).  Evaluating the embedded refining branch at a
concrete input with a failing refinement call exhibits the error. -/
theorem C3_refinement_fallback_raises_validation_error :
    generateStrategyRefining (.error "model unavailable")
      sampleStrategyWithAttempt "stock buyback basics" =
      .error "ValidationError: field required" := rfl

/-- `QueryLine` from `models/recommendations/query_lines.py`; `datetime`
values are `Nat` ticks. -/
structure QueryLine where
  user_id : String
  line_id : String
  queries : List String
  timestamps : List Nat
  responses : List String
  line_topic : String
  last_updated : Nat
deriving Repr, DecidableEq

/-- Line creation in `QueryLineManager.get_or_update_line`
(`query_lines/line_manager.py` lines 60-68): fresh line with one query and
timestamp, no responses, initial topic = raw query text. -/
def newQueryLine (user_id : String) (line_id : String) (query : String)
    (now : Nat) : QueryLine :=
  { user_id := user_id
    line_id := line_id
    queries := [query]
    timestamps := [now]
    responses := []
    line_topic := query
    last_updated := now }

/-- Continuation branch of `QueryLineManager.get_or_update_line`
(`query_lines/line_manager.py` lines 52-58): appends the query and a
timestamp to the chosen line. -/
def appendQueryToLine (line : QueryLine) (query : String) (now : Nat) :
    QueryLine :=
  { line with
    queries := line.queries ++ [query]
    timestamps := line.timestamps ++ [now]
    last_updated := now }

/-- Line mutation in `PerplexityClient.get_response`
(`perplexity/client.py` lines 119-124): appends the answer to `responses`
and also appends a timestamp. -/
def getResponseUpdateLine (line : QueryLine) (answer : String) (now : Nat) :
    QueryLine :=
  { line with
    responses := line.responses ++ [answer]
    timestamps := line.timestamps ++ [now]
    last_updated := now }

/-- The line right after a user with no prior lines sends a first query. -/
def lineAfterFirstQuery : QueryLine :=
  newQueryLine "user1" "line1" "What is a stock buyback?" 0

/-- The same line after the Perplexity answer has been appended. -/
def lineAfterFirstResponse : QueryLine :=
  getResponseUpdateLine lineAfterFirstQuery "A buyback is a repurchase." 1

/-- C1: the claim says `queries` and `timestamps` stay equally long after
every mutating operation.  `PerplexityClient.get_response` appends a
timestamp together with the response (client.py line 122) although the
`QueryLine` model documents `timestamps` as parallel to `queries` (when
each query was made), so already after the very first answer the line has
one query but two timestamps. -/
theorem C1_get_response_breaks_queries_timestamps_parallel :
    lineAfterFirstResponse.queries.length = 1 ∧
    lineAfterFirstResponse.timestamps.length = 2 ∧
    lineAfterFirstResponse.responses.length = 1 ∧
    lineAfterFirstResponse.timestamps.length ≠
      lineAfterFirstResponse.queries.length := by
  refine ⟨rfl, rfl, rfl, ?_⟩
  decide

/-- `ConceptEvidence` from `models/recommendations/knowledge_state.py`. -/
structure ConceptEvidence where
  source : String
  text : String
deriving Repr, DecidableEq

/-- `ConceptUnderstanding` from `models/recommendations/knowledge_state.py`. -/
structure ConceptUnderstanding where
  concept : String
  demonstrated_level : Rat
  demonstration_evidence : List ConceptEvidence
  exposed_through : List ConceptEvidence
  successful_applications : List String
  misconceptions : List String
deriving Repr, DecidableEq

/-- `TopicKnowledge` from `models/recommendations/knowledge_state.py`. -/
structure TopicKnowledge where
  topic : String
  concepts : List ConceptUnderstanding
  explanation_preferences : List String
  progression_capability : String
  connection_making : String
  abstraction_level : String
  effective_examples : List String
  latest_response_concepts : List String
deriving Repr, DecidableEq

/-- `KnowledgeState` from `models/recommendations/knowledge_state.py`. -/
structure KnowledgeState where
  current_topic : TopicKnowledge
  related_topics : List TopicKnowledge
  overall_patterns : List String
deriving Repr, DecidableEq

/-- `KnowledgeAnalyzer._extract_response_concepts`
(`knowledge_state/knowledge_analyzer.py` lines 120-168): the structured
concept-extraction call is the argument; the `except` branch returns the
empty list. -/
def extractResponseConcepts (extractCall : Except String (List String)) :
    List String :=
  match extractCall with
  | .ok concepts => concepts
  | .error _ => []

/-- Tail of `KnowledgeAnalyzer.analyze_knowledge`
(`knowledge_state/knowledge_analyzer.py` lines 107-114): `primaryState` is
the `KnowledgeState` the main analysis call produced (from cache or live);
when the current line has a response, the helper result is spliced into
`current_topic.latest_response_concepts` unconditionally. -/
def analyzeKnowledge (primaryState : KnowledgeState) (current_line : QueryLine)
    (extractCall : Except String (List String)) : KnowledgeState :=
  if current_line.responses ≠ [] then
    { primaryState with
      current_topic :=
        { primaryState.current_topic with
          latest_response_concepts := extractResponseConcepts extractCall } }
  else primaryState

/-- A primary-analysis result whose exposed-concepts list is non-empty. -/
def samplePrimaryState : KnowledgeState :=
  { current_topic :=
      { topic := "stock buybacks"
        concepts := []
        explanation_preferences := []
        progression_capability := "steady"
        connection_making := "strong"
        abstraction_level := "concrete"
        effective_examples := []
        latest_response_concepts := ["earnings per share"] }
    related_topics := []
    overall_patterns := [] }

/-- C6 counterexample: the claim says that when the concept-extraction call
fails, `latest_response_concepts` equals the list the primary analysis
returned.  On a primary state whose list is `["earnings per share"]` and a
failing extraction call, the code instead overwrites the list with the
helper degraded value `[]`. -/
theorem C6_concepts_overwritten_on_failure :
    (analyzeKnowledge samplePrimaryState lineAfterFirstResponse
        (.error "extraction failed")).current_topic.latest_response_concepts ≠
      samplePrimaryState.current_topic.latest_response_concepts := by
  decide

/-- C6 amended: when the current line has at least one response and the
concept-extraction call fails, `analyze_knowledge` replaces
`current_topic.latest_response_concepts` with the empty list (the helper
degraded value), so it equals the primary list only when that list was
empty. -/
theorem C6_amended_concepts_set_empty_on_failure
    (primaryState : KnowledgeState) (current_line : QueryLine) (err : String)
    (h : current_line.responses ≠ []) :
    (analyzeKnowledge primaryState current_line
        (.error err)).current_topic.latest_response_concepts = [] := by
  simp [analyzeKnowledge, extractResponseConcepts, h]

/-- Witness for `C6_amended_concepts_set_empty_on_failure` at a concrete
line with one response. -/
theorem C6_amended_concepts_witness :
    lineAfterFirstResponse.responses ≠ [] ∧
    (analyzeKnowledge samplePrimaryState lineAfterFirstResponse
        (.error "boom")).current_topic.latest_response_concepts = [] :=
  ⟨by decide,
    C6_amended_concepts_set_empty_on_failure samplePrimaryState
      lineAfterFirstResponse "boom" (by decide)⟩

/-- `ProcessedContent` from `models/recommendations/content.py`, reduced to
the fields the filterer computation reads (`content_id`, `url`); the
analysis fields feed only the evaluation prompt, which is inside the
structured call modelled by the `evaluate` argument below. -/
structure ProcessedContent where
  content_id : String
  url : String
deriving Repr, DecidableEq

/-- `ContentEvaluation` from `models/recommendations/content_filtering.py`. -/
structure ContentEvaluation where
  is_valuable : Bool
  explanation : String
  relevant_sections : List String
  value_score : Rat
deriving Repr, DecidableEq

/-- `ContentValue` from `models/recommendations/content_filtering.py`. -/
structure ContentValue where
  content_id : String
  url : String
  value_score : Rat
  explanation : String
  relevant_sections : List String
  relevance_context : String
deriving Repr, DecidableEq

/-- `FilteredContent` from `models/recommendations/content_filtering.py`. -/
structure FilteredContent where
  valuable_content : List ContentValue
  attempted_content : List String
deriving Repr, DecidableEq

/-- The `ContentValue` built in `ContentFilterer.filter_content`
(`content/content_filterer.py` lines 76-90); `currentTopicLabel` is
`knowledge_state.current_topic.topic`. -/
def mkContentValue (content : ProcessedContent) (ev : ContentEvaluation)
    (currentTopicLabel : String) : ContentValue :=
  { content_id := content.content_id
    url := content.url
    value_score := ev.value_score
    explanation := ev.explanation
    relevant_sections := ev.relevant_sections
    relevance_context :=
      "This content aligns with your current understanding of " ++
        currentTopicLabel ++ " and provides valuable insights about" ++
        String.intercalate ", " ev.relevant_sections ++ "." }

/-- The candidate loop of `ContentFilterer.filter_content` (lines 57-95):
for each candidate append its id to `attempted_ids` and, when the
evaluation judged it valuable, the built `ContentValue` to
`valuable_content`.  Returns `(attempted_ids, valuable_content)` in
iteration order. -/
def filterLoop (evaluate : ProcessedContent → ContentEvaluation)
    (currentTopicLabel : String) :
    List ProcessedContent → List String × List ContentValue
  | [] => ([], [])
  | c :: rest =>
      let ev := evaluate c
      let p := filterLoop evaluate currentTopicLabel rest
      (c.content_id :: p.1,
        if ev.is_valuable then mkContentValue c ev currentTopicLabel :: p.2
        else p.2)

/-- Stable descending insertion by `value_score`, modelling
`valuable_content.sort(key=lambda x: x.value_score, reverse=True)`. -/
def insertByScoreDesc (c : ContentValue) :
    List ContentValue → List ContentValue
  | [] => [c]
  | d :: rest =>
      if d.value_score < c.value_score then c :: d :: rest
      else d :: insertByScoreDesc c rest

/-- Sorts valuable content descending by score (stable). -/
def sortByScoreDesc : List ContentValue → List ContentValue
  | [] => []
  | c :: rest => insertByScoreDesc c (sortByScoreDesc rest)

/-- `ContentFilterer.filter_content` (`content/content_filterer.py` lines
34-107) on the path where every per-candidate evaluation call returns: the
structured evaluation (with its prompt context) is the `evaluate`
argument. -/
def filterContent (evaluate : ProcessedContent → ContentEvaluation)
    (candidates : List ProcessedContent) (currentTopicLabel : String) :
    FilteredContent :=
  let p := filterLoop evaluate currentTopicLabel candidates
  { valuable_content := sortByScoreDesc p.2
    attempted_content := p.1 }

/-- The attempted-ids accumulator is exactly the candidates' ids in order. -/
theorem filterLoop_fst (evaluate : ProcessedContent → ContentEvaluation)
    (currentTopicLabel : String) (candidates : List ProcessedContent) :
    (filterLoop evaluate currentTopicLabel candidates).1 =
      candidates.map (fun c => c.content_id) := by
  induction candidates with
  | nil => rfl
  | cons c rest ih => simp [filterLoop, ih]

/-- C9: `filter_content` records every candidate: `attempted_content` has
the same length as the candidate list and contains each candidate's
`content_id`, regardless of how many candidates were judged valuable. -/
theorem C9_attempted_content_complete
    (evaluate : ProcessedContent → ContentEvaluation)
    (currentTopicLabel : String) (candidates : List ProcessedContent) :
    (filterContent evaluate candidates
        currentTopicLabel).attempted_content.length = candidates.length ∧
    ∀ c, c ∈ candidates →
      c.content_id ∈
        (filterContent evaluate candidates currentTopicLabel).attempted_content := by
  constructor
  · simp [filterContent, filterLoop_fst]
  · intro c hc
    simp only [filterContent, filterLoop_fst]
    exact List.mem_map_of_mem (fun c => c.content_id) hc

/-- A candidate and an evaluation oracle used by concrete instances. -/
def sampleCandidate : ProcessedContent :=
  { content_id := "cid-1", url := "https://example.org/a" }

/-- An evaluation oracle judging nothing valuable. -/
def sampleEvaluate : ProcessedContent → ContentEvaluation :=
  fun _ =>
    { is_valuable := false
      explanation := "not relevant"
      relevant_sections := []
      value_score := 0 }

/-- Witness for `C9_attempted_content_complete` on a one-candidate list
where nothing is judged valuable. -/
theorem C9_attempted_content_witness :
    (filterContent sampleEvaluate [sampleCandidate]
        "stock buybacks").attempted_content.length = 1 ∧
    sampleCandidate.content_id ∈
      (filterContent sampleEvaluate [sampleCandidate]
        "stock buybacks").attempted_content := by
  have h := C9_attempted_content_complete sampleEvaluate "stock buybacks"
    [sampleCandidate]
  exact ⟨h.1, h.2 sampleCandidate (by simp)⟩

/-- The terminal payload dictionary built at `orchestrator.py` lines
349-354. -/
structure TerminalPayload where
  perplexity_response : String
  moment : String
  recommendations : List ContentValue
  line_analysis_goal : String
  line_analysis_progression : String
  line_analysis_focus : String
deriving Repr, DecidableEq

/-- The Python attribute access `moment.value` on an
`Optional[LearningMoment]`: on `None` it raises `AttributeError`. -/
def momentDotValue (moment : Option LearningMoment) : Except String String :=
  match moment with
  | some m => .ok m.value
  | none => .error "AttributeError: NoneType has no attribute value"

/-- Terminal step of `RecommendationOrchestrator.process_with_progress`
(`orchestrator.py` lines 277-354): when no moment was detected the strategy
loop is skipped and `recommendations` stays `[]`; the payload is then built
with `moment.value`.  The pipeline-stage outcomes are arguments. -/
def processWithProgressPayload (perplexity_response : String)
    (goal progression focus : String) (moment : Option LearningMoment)
    (recommendations : List ContentValue) : Except String TerminalPayload :=
  match momentDotValue moment with
  | .error e => .error e
  | .ok mv =>
      .ok
        { perplexity_response := perplexity_response
          moment := mv
          recommendations := recommendations
          line_analysis_goal := goal
          line_analysis_progression := progression
          line_analysis_focus := focus }

/-- A detection with `is_moment = false`, as returned when the classifier
finds no valuable moment. -/
def sampleNoMomentDetection : MomentDetection :=
  { is_moment := false
    moment_type := .new_topic_no_context
    confidence := (1 : ℚ) / 2
    reasoning := "routine continuation"
    signals := [] }

/-- C7: the claim says a run in which the moment detector returns `None`
completes with a terminal payload carrying a null `moment`.  The payload
construction at `orchestrator.py` line 351 evaluates `moment.value`
unconditionally, so with `detect_moment` returning `None` the access raises
`AttributeError` and `process_with_progress` re-raises instead of returning
a payload. -/
theorem C7_null_moment_payload_raises :
    processWithProgressPayload "A buyback is a repurchase." "goal"
      "progression" "focus" (detectMoment sampleNoMomentDetection) [] =
      .error "AttributeError: NoneType has no attribute value" := rfl

/-- One chat message dict (`role`, `content`) as passed to the cache. -/
structure CacheMessage where
  role : String
  content : String
deriving Repr, DecidableEq

/-- Canonical (sorted-keys) JSON serialization of one message dict, as
produced by `json.dumps(..., sort_keys=True)` (keys in order `content`,
`role`). -/
def serializeMessage (m : CacheMessage) : String :=
  "\x7b\"content\": \"" ++ m.content ++ "\", \"role\": \"" ++ m.role ++ "\"\x7d"

/-- Canonical serialization of the message list. -/
def serializeMessages (messages : List CacheMessage) : String :=
  "[" ++ String.intercalate ", " (messages.map serializeMessage) ++ "]"

/-- `OpenAICache._generate_call_id` (`cache/openai_cache.py` lines 49-57):
the SHA-256 hex digest of the canonical sorted-keys JSON serialization of
`\x7b"messages": ..., "model": ...\x7d`.  The digest itself is modelled by the
serialization it is computed from: like the digest it is one fixed,
deterministic function of the `(messages, model)` pair, which is all the
code relies on. -/
def generateCallId (messages : List CacheMessage) (model : String) : String :=
  "sha256:\x7b\"messages\": " ++ serializeMessages messages ++
    ", \"model\": \"" ++ model ++ "\"\x7d"

/-- `OpenAICallRecord` from `cache/openai_cache.py`, polymorphic in the raw
response payload. -/
structure CallRecord (α : Type) where
  call_id : String
  timestamp : Nat
  model : String
  messages : List CacheMessage
  response : α
  processed_result : Option α
  duration_ms : Nat
  error : Option String

/-- The record `store_call` builds (`cache/openai_cache.py` lines 93-102). -/
def mkCallRecord {α : Type} (messages : List CacheMessage) (model : String)
    (response : α) (processed_result : Option α) (duration_ms : Nat)
    (error : Option String) (now : Nat) : CallRecord α :=
  { call_id := generateCallId messages model
    timestamp := now
    model := model
    messages := messages
    response := response
    processed_result := processed_result
    duration_ms := duration_ms
    error := error }

/-- `OpenAICache.get_cached_response` (`cache/openai_cache.py` lines
59-78): the backend lookup (`db.calls.find_one`) is the `findOne`
argument, an `Except` since the whole body sits in a try/except whose
`except` branch returns `None`; on a hit the record `response` field is
returned. -/
def getCachedResponse {α : Type}
    (findOne : String → Except String (Option (CallRecord α)))
    (messages : List CacheMessage) (model : String) : Option α :=
  match findOne (generateCallId messages model) with
  | .ok (some record) => some record.response
  | .ok none => none
  | .error _ => none

/-- `OpenAICache.store_call` (`cache/openai_cache.py` lines 80-117): the
backend upsert (`db.calls.update_one`) is the `updateOne` argument; the
`except` branch logs the error and then re-raises it. -/
def storeCall {α : Type}
    (updateOne : String → CallRecord α → Except String Unit)
    (messages : List CacheMessage) (model : String) (response : α)
    (processed_result : Option α) (duration_ms : Nat) (error : Option String)
    (now : Nat) : Except String Unit :=
  match updateOne (generateCallId messages model)
      (mkCallRecord messages model response processed_result duration_ms
        error now) with
  | .ok _ => .ok ()
  | .error e => .error e

/-- C5 counterexample: the claim says neither cache operation ever
propagates an exception to its caller.  With a failing backend write,
`store_call` returns the error to its caller (the `except` branch at
`openai_cache.py` lines 115-117 logs and then re-raises), so the claim as
stated is false. -/
theorem C5_store_call_error_propagates :
    storeCall (α := String)
      (fun _ _ => .error "mongo write failed")
      [⟨"user", "What is a stock buyback?"⟩] "gpt-4o"
      "strategy json" none 120 none 7 =
      .error "mongo write failed" := rfl

/-- C5 amended: a cache read error makes `get_cached_response` return
`None` (a cache miss), but a write error in `store_call` is logged and
then re-raised: only the read path never propagates exceptions, the write
path propagates exactly the backend error. -/
theorem C5_amended_cache_error_semantics {α : Type} (e : String)
    (messages : List CacheMessage) (model : String) (response : α)
    (processed_result : Option α) (duration_ms : Nat) (error : Option String)
    (now : Nat) :
    getCachedResponse (α := α) (fun _ => .error e) messages model = none ∧
    storeCall (fun _ _ => .error e) messages model response processed_result
      duration_ms error now = .error e :=
  ⟨rfl, rfl⟩

/-- Association-list lookup modelling `db.calls.find_one({"call_id": id})`
over an in-memory document store keyed by `call_id`. -/
def dbFindOne {β : Type} (db : List (String × β)) (id : String) : Option β :=
  match db with
  | [] => none
  | (k, v) :: rest => if k == id then some v else dbFindOne rest id

/-- Upsert modelling `db.calls.update_one({"call_id": id}, ..., upsert=True)`:
replace the record under `id` when present, otherwise insert it. -/
def dbUpsert {β : Type} (db : List (String × β)) (id : String) (v : β) :
    List (String × β) :=
  match db with
  | [] => [(id, v)]
  | (k, w) :: rest =>
      if k == id then (id, v) :: rest else (k, w) :: dbUpsert rest id v

/-- Lookup after upsert under the same key returns the upserted value. -/
theorem dbFindOne_dbUpsert_same {β : Type} (db : List (String × β))
    (id : String) (v : β) : dbFindOne (dbUpsert db id v) id = some v := by
  induction db with
  | nil => simp [dbUpsert, dbFindOne]
  | cons p rest ih =>
    obtain ⟨k, w⟩ := p
    cases h : (k == id) <;> simp [dbUpsert, dbFindOne, h, ih]

/-- `get_cached_response` run against the concrete in-memory store (a
successful backend lookup). -/
def getCachedResponseDB {α : Type} (db : List (String × CallRecord α))
    (messages : List CacheMessage) (model : String) : Option α :=
  getCachedResponse (fun id => .ok (dbFindOne db id)) messages model

/-- `store_call` run against the concrete in-memory store: the state after
the upsert of the freshly built record. -/
def storeCallDB {α : Type} (db : List (String × CallRecord α))
    (messages : List CacheMessage) (model : String) (response : α)
    (duration_ms : Nat) (now : Nat) : List (String × CallRecord α) :=
  dbUpsert db (generateCallId messages model)
    (mkCallRecord messages model response none duration_ms none now)

/-- Outcome of one cached structured call: the value obtained, the cache
state afterwards, and how many live API invocations were paid. -/
structure CallOutcome (α : Type) where
  result : α
  db : List (String × CallRecord α)
  live_calls : Nat

/-- The caller pattern shared by every LLM-backed component (for example
`StrategyGenerator.generate_strategy` lines 85-114 and
`MomentDetector.detect_moment` lines 61-85): check the cache for
`(messages, model)`; on a hit return the cached value with no live call;
on a miss invoke the live API (`live`) and store the result back. -/
def cachedStructuredCall {α : Type} (db : List (String × CallRecord α))
    (messages : List CacheMessage) (model : String) (live : α)
    (duration_ms : Nat) (now : Nat) : CallOutcome α :=
  match getCachedResponseDB db messages model with
  | some v => ⟨v, db, 0⟩
  | none => ⟨live, storeCallDB db messages model live duration_ms now, 1⟩

/-- Reading right after storing under the same `(messages, model)` pair
yields the stored response. -/
theorem getCachedResponseDB_storeCallDB {α : Type}
    (db : List (String × CallRecord α)) (messages : List CacheMessage)
    (model : String) (response : α) (duration_ms : Nat) (now : Nat) :
    getCachedResponseDB (storeCallDB db messages model response duration_ms now)
      messages model = some response := by
  simp [getCachedResponseDB, storeCallDB, getCachedResponse,
    dbFindOne_dbUpsert_same, mkCallRecord]

/-- C8: the cache key is one fixed function of the `(messages, model)` pair
(`generateCallId`), and after a first structured call under that pair a
second call with the same pair returns exactly the first call's value,
leaves the cache unchanged, and pays no live API invocation — whatever the
second live oracle would have produced. -/
theorem C8_cache_get_after_put_identity {α : Type}
    (db : List (String × CallRecord α)) (messages : List CacheMessage)
    (model : String) (live1 live2 : α) (d1 n1 d2 n2 : Nat) :
    cachedStructuredCall
        (cachedStructuredCall db messages model live1 d1 n1).db
        messages model live2 d2 n2 =
      ⟨(cachedStructuredCall db messages model live1 d1 n1).result,
        (cachedStructuredCall db messages model live1 d1 n1).db, 0⟩ := by
  cases h : getCachedResponseDB db messages model with
  | some v => simp [cachedStructuredCall, h]
  | none => simp [cachedStructuredCall, h, getCachedResponseDB_storeCallDB]

/-- `RecommendationResult` from `orchestrator.py` lines 40-49. -/
structure RecommendationResult where
  perplexity_response : String
  moment : Option LearningMoment
  recommendations : Option (List ContentValue)
deriving Repr, DecidableEq

/-- The strategy/search/filter loop of
`RecommendationOrchestrator.get_recommendations` (`orchestrator.py` lines
171-227), with the per-iteration external calls as arguments (`search` for
`content_discovery.execute_search`, `evaluate` for the per-candidate
structured evaluation inside `filter_content`, `refineCall` for the
refinement structured call) and the remaining attempts as fuel
(`max_attempts - attempt`).  On an iteration without valuable content the
attempt is recorded and the strategy regenerated in refining mode; errors
raised by those steps propagate. -/
def recommendationLoop (search : SearchStrategy → List ProcessedContent)
    (evaluate : ProcessedContent → ContentEvaluation)
    (refineCall : SearchStrategy → Except String StrategyRefinement)
    (query : String) (currentTopicLabel : String) :
    Nat → SearchStrategy → Except String (Option (List ContentValue))
  | 0, _ => .ok none
  | Nat.succ fuel, strategy =>
      let filtered := filterContent evaluate (search strategy) currentTopicLabel
      if filtered.valuable_content ≠ [] then .ok (some filtered.valuable_content)
      else
        match recordAttempt strategy query []
            (some "No valuable content found") with
        | .error e => .error e
        | .ok strategy1 =>
            match generateStrategyRefining (refineCall strategy1) strategy1
                query with
            | .error e => .error e
            | .ok strategy2 =>
                recommendationLoop search evaluate refineCall query
                  currentTopicLabel fuel strategy2

/-- `RecommendationOrchestrator.get_recommendations` (`orchestrator.py`
lines 117-237) from the moment-detection step on: without a moment the
result is returned immediately with no recommendations; with a moment the
initial strategy enters the bounded loop. -/
def getRecommendations (search : SearchStrategy → List ProcessedContent)
    (evaluate : ProcessedContent → ContentEvaluation)
    (refineCall : SearchStrategy → Except String StrategyRefinement)
    (perplexity_response : String) (query : String)
    (currentTopicLabel : String) (moment : Option LearningMoment)
    (initialStrategy : SearchStrategy) (max_attempts : Nat) :
    Except String RecommendationResult :=
  match moment with
  | none =>
      .ok
        { perplexity_response := perplexity_response
          moment := none
          recommendations := none }
  | some m =>
      match recommendationLoop search evaluate refineCall query
          currentTopicLabel max_attempts initialStrategy with
      | .error e => .error e
      | .ok (some recs) =>
          .ok
            { perplexity_response := perplexity_response
              moment := some m
              recommendations := some recs }
      | .ok none =>
          .ok
            { perplexity_response := perplexity_response
              moment := some m
              recommendations := none }

/-- C4: the claim says a run in which a moment is detected and all 3
iterations find no valuable content returns `recommendations=None` with 3
accumulated `SearchAttempt`s.  The code never completes such a run: the
first failed iteration calls `record_attempt`, whose `SearchStrategy`
construction omits the required `reasoning` field, so `get_recommendations`
raises `ValidationError` during the first iteration instead of returning a
result.  Evaluating the embedded pipeline on a run where the search yields
no candidates (hence nothing valuable) exhibits the raised error. -/
theorem C4_failed_attempts_run_raises_validation_error :
    getRecommendations (fun _ => []) sampleEvaluate
      (fun _ => .error "model unavailable") "A buyback is a repurchase."
      "What is a stock buyback?" "stock buybacks"
      (some .new_topic_no_context) sampleFreshStrategy 3 =
      .error "ValidationError: field required" := rfl
